import Mathlib

/-
Verification development for the BAPC public-funeral scraper.

Shallow embedding of the repository's Python modules:
  * services/gpt_analyzer.py   (clean_analyzed_data and its value conversion)
  * services/telegram.py       (send_funeral_notification, _is_night_time)
  * core/http_client.py        (HttpClient.get/post and the Tor fallback)
  * scrapers/base.py           (BaseScraper.scrape, parse_urls, parse_content,
                                get_last_page_num)
  * migration/json_to_pocketbase.py (migrate_raw_data, migrate_sent_data,
                                migrate_analyzed_data filtering)

Python dictionaries are embedded as association lists with unique keys
(List.lookup); machine-level concerns (sockets, BeautifulSoup's HTML tree)
are abstracted into oracle structures whose fields hold exactly the data the
source code inspects, while every branch of the repository's own control
flow is embedded verbatim.
-/

/-! ## services/gpt_analyzer.py -/

/-- A Python/JSON value as it appears in a parsed GPT reply: strings,
integers, booleans, `None`, dictionaries and lists. -/
inductive PyVal where
  | str (s : String)
  | num (n : Int)
  | bool (b : Bool)
  | none_
  | dict (entries : List (String × PyVal))
  | arr (items : List PyVal)

mutual

/-- Python `repr` on the embedded values (used by `str()` on containers;
string keys render between single quotes). -/
def pyRepr : PyVal → String
  | .str s => "'" ++ s ++ "'"
  | .num n => toString n
  | .bool b => if b then "True" else "False"
  | .none_ => "None"
  | .dict es => "\x7b" ++ String.intercalate ", " (pyReprEntries es) ++ "\x7d"
  | .arr xs => "[" ++ String.intercalate ", " (pyReprItems xs) ++ "]"

/-- Renders each dictionary entry for `pyRepr`. -/
def pyReprEntries : List (String × PyVal) → List String
  | [] => []
  | (k, v) :: rest => ("'" ++ k ++ "': " ++ pyRepr v) :: pyReprEntries rest

/-- Renders each list element for `pyRepr`. -/
def pyReprItems : List PyVal → List String
  | [] => []
  | v :: rest => pyRepr v :: pyReprItems rest

end

/-- Python `str()` on the embedded values. -/
def pyStr : PyVal → String
  | .str s => s
  | v => pyRepr v

/-- The fixed nine extraction tags of `GPTAnalyzer.EXTRACTION_TAGS` /
`clean_analyzed_data.TAGS`. -/
def EXTRACTION_TAGS : List String :=
  ["이름", "생년월일", "거주지", "사망일시", "사망장소",
   "장례일정", "장례장소", "발인일시", "화장일시"]

mutual

/-- `convert_value` of `clean_analyzed_data`: dict entries become
"key:value" lines joined by newline, lists become ", "-joined `str()`
of the elements, `None` becomes the failure sentinel, scalars become
their `str()`. -/
def convert_value : PyVal → String
  | .dict es => String.intercalate "\n" (convEntries es)
  | .arr xs => String.intercalate ", " (xs.map pyStr)
  | .none_ => "추출 실패"
  | .str s => s
  | .num n => toString n
  | .bool b => if b then "True" else "False"

/-- The "key:value" line of each dictionary entry for `convert_value`. -/
def convEntries : List (String × PyVal) → List String
  | [] => []
  | (k, v) :: rest => (k ++ ":" ++ convert_value v) :: convEntries rest

end

/-- The no-value markers of `clean_analyzed_data`'s post-conversion check
`converted in ["그 외의 사항", "", "없음", None]` (the `None` member can
never match the already-stringified value, and is kept as `none`). -/
def emptyMarkers : List (Option String) :=
  [some "그 외의 사항", some "", some "없음", none]

/-- The per-tag loop body of `clean_analyzed_data`: fetch the tag with the
failure-sentinel default, convert, then map the no-value markers to the
failure sentinel. -/
def cleanValue (content : List (String × PyVal)) (tag : String) : String :=
  let value := (List.lookup tag content).getD (.str "추출 실패")
  let converted := convert_value value
  if some converted ∈ emptyMarkers then "추출 실패" else converted

/-- `clean_analyzed_data` of services/gpt_analyzer.py.  `data` is the
analysis-result dictionary; `data.get("content", {})` must be a dictionary
(on any other value the Python code raises, embedded as `none`). -/
def clean_analyzed_data (data : List (String × PyVal)) :
    Option (List (String × String)) :=
  match (List.lookup "content" data).getD (.dict []) with
  | .dict content => some (EXTRACTION_TAGS.map (fun tag => (tag, cleanValue content tag)))
  | _ => none

/-! ## services/telegram.py and the district tables of config.py -/

/-- `DISTRICT_NAMES_ENG_TO_KOR` of config.py. -/
def DISTRICT_NAMES_ENG_TO_KOR : List (String × String) :=
  [("BUKGU", "북구"), ("DONGGU", "동구"), ("DONGNAE", "동래구"),
   ("GANGSEO", "강서구"), ("GEUMJEONG", "금정구"), ("GIJANG", "기장군"),
   ("HAEUNDAE", "해운대구"), ("JINGU", "부산진구"), ("JUNGGU", "중구"),
   ("NAMGU", "남구"), ("SAHA", "사하구"), ("SASANG", "사상구"),
   ("SEOGU", "서구"), ("SUYEONG", "수영구"), ("YEONGDOGU", "영도구"),
   ("YEONJE", "연제구")]

/-- `DISTRICT_NAMES_KOR_TO_ENG` of config.py: the inverted table (the
sixteen Korean names are pairwise distinct, so the dict comprehension is
the plain swap). -/
def DISTRICT_NAMES_KOR_TO_ENG : List (String × String) :=
  DISTRICT_NAMES_ENG_TO_KOR.map (fun p => (p.2, p.1))

/-- `DISTRICT_CHANNEL_IDS` of config.py (non-test mode). -/
def DISTRICT_CHANNEL_IDS : List (String × String) :=
  [("BUKGU", "-4130128744"), ("DONGGU", "-4165065871"),
   ("DONGNAE", "-4178400896"), ("GANGSEO", "-4104549484"),
   ("GEUMJEONG", "-4199264402"), ("GIJANG", "-4158955899"),
   ("HAEUNDAE", "-4158535154"), ("JINGU", "-4178316252"),
   ("JUNGGU", "-4178873706"), ("NAMGU", "-4155333786"),
   ("SAHA", "-4158043390"), ("SASANG", "-4153235935"),
   ("SEOGU", "-4162434773"), ("SUYEONG", "-4120218199"),
   ("YEONGDOGU", "-4193340992"), ("YEONJE", "-4104969591")]

/-- Python `html.escape` with its default `quote=True`: ampersand first,
then angle brackets, then both quote characters. -/
def htmlEscape (s : String) : String :=
  ((((s.replace "&" "&amp;").replace "<" "&lt;").replace ">" "&gt;").replace
      "\"" "&quot;").replace "'" "&#x27;"

/-- `MessageTemplates.numbered_markers` of config.py. -/
def numbered_markers : List String :=
  ["①", "②", "③", "④", "⑤", "⑥", "⑦", "⑧", "⑨", "⑩"]

/-- `MessageTemplates.format_funeral_title` of config.py: the
`funeral_new` template at update count 0, else `funeral_updated`. -/
def format_funeral_title (district : String) (update_count : Nat) : String :=
  if update_count = 0 then
    "<b>🔔 [" ++ district ++ "] 새로운 부고가 게시되었습니다.</b>"
  else
    "<b>🔔 [" ++ district ++ "] 부고가 수정되었습니다(ver. " ++
      toString update_count ++ ")</b>"

/-- `MessageTemplates.format_funeral_info` of config.py: one
`funeral_info_item` line per field, numbered by `numbered_markers`,
silently dropping entries beyond the marker sequence. -/
def format_funeral_info (data : List (String × String)) : String :=
  String.intercalate "\n" (data.enum.filterMap (fun p =>
    (numbered_markers.get? p.1).map
      (fun num => num ++ " " ++ p.2.1 ++ " : " ++ p.2.2)))

/-- A clock reading in Korea Standard Time, as `datetime.time` fields. -/
structure TimeOfDay where
  hour : Nat
  minute : Nat
  second : Nat

/-- Python `datetime.time` strict comparison: lexicographic on
(hour, minute, second). -/
def timeLtb (a b : TimeOfDay) : Bool :=
  a.hour < b.hour ||
    (a.hour = b.hour &&
      (a.minute < b.minute || (a.minute = b.minute && a.second < b.second)))

/-- `TelegramService._is_night_time`: `t >= time(20, 0) or t < time(7, 0)`
on the current KST clock reading. -/
def is_night_time (t : TimeOfDay) : Bool :=
  !timeLtb t ⟨20, 0, 0⟩ || timeLtb t ⟨7, 0, 0⟩

/-- One attempted call of `TelegramService._send_message`. -/
structure SendRec where
  chat_id : String
  text : String
  silent : Bool

/-- The delivery-relevant part of `TelegramConfig`. -/
structure TelegramCfg where
  funeral_main : String
  district_channels : List (String × String)

/-- `TelegramService._send_message`, with the network outcome given by the
`oracle` (True exactly when the API reply is ok and no request exception
occurs); the attempted call is logged. -/
def send_message (oracle : String → String → Bool) (chat_id text : String)
    (silent : Bool) : Bool × List SendRec :=
  (oracle chat_id text, [⟨chat_id, text, silent⟩])

/-- The message built by `TelegramService.send_funeral_notification`:
title, HTML-escaped numbered info lines, then the link line. -/
def build_funeral_message (district_kor url : String) (update_count : Nat)
    (analyzed_data : List (String × String)) : String :=
  let title := format_funeral_title district_kor update_count
  let escaped := analyzed_data.map (fun p => (p.1, htmlEscape p.2))
  let info_text := format_funeral_info escaped
  let url_text := "\n<a href='" ++ (url.replace "&>&" "&") ++ "'>부고 게시물 확인</a>"
  title ++ "\n" ++ info_text ++ url_text

/-- `TelegramService.send_funeral_notification`: resolve the district and
its channel (Python falsiness makes the empty string fail the check too),
build the message, then attempt the district channel and the combined
channel, succeeding only when both sends succeed.  Returns the result
together with the log of attempted sends. -/
def send_funeral_notification (oracle : String → String → Bool)
    (cfg : TelegramCfg) (now : TimeOfDay) (district_kor url : String)
    (update_count : Nat) (analyzed_data : List (String × String)) :
    Bool × List SendRec :=
  match List.lookup district_kor DISTRICT_NAMES_KOR_TO_ENG with
  | none => (false, [])
  | some district_eng =>
    if district_eng = "" then (false, []) else
    match List.lookup district_eng cfg.district_channels with
    | none => (false, [])
    | some channel_id =>
      if channel_id = "" then (false, []) else
      let message := build_funeral_message district_kor url update_count analyzed_data
      let is_night := is_night_time now
      let r1 := send_message oracle channel_id message is_night
      let r2 := send_message oracle cfg.funeral_main message is_night
      (r1.1 && r2.1, r1.2 ++ r2.2)

/-! ## core/http_client.py -/

namespace Http

/-- The keyword-argument dictionary forwarded to `requests`; only the keys
the client itself touches are tracked. -/
structure Kwargs where
  verify : Option Bool
  timeout : Option Nat
  params : Option (List (String × String))
  proxies : Option String
deriving DecidableEq

/-- The empty `**kwargs`. -/
def Kwargs.empty : Kwargs := ⟨none, none, none, none⟩

/-- `kwargs.setdefault('verify', v)`. -/
def Kwargs.setdefaultVerify (k : Kwargs) (v : Bool) : Kwargs :=
  match k.verify with
  | some _ => k
  | none => { k with verify := some v }

/-- `kwargs.setdefault('timeout', t)`. -/
def Kwargs.setdefaultTimeout (k : Kwargs) (t : Nat) : Kwargs :=
  match k.timeout with
  | some _ => k
  | none => { k with timeout := some t }

inductive Method where
  | get
  | post
deriving DecidableEq

/-- One request handed to `requests.Session`: for POST the explicit
`data=`/`params=` arguments ride outside `**kwargs`. -/
structure HttpRequest where
  method : Method
  url : String
  kwargs : Kwargs
  postData : Option (List (String × String))
  postParams : Option (List (String × String))
deriving DecidableEq

/-- What the network returns for a request: a completed response with a
status code and body, or a connection-level failure. -/
inductive NetAnswer where
  | response (status : Nat) (body : String)
  | connFailure

/-- The network and the byte decoder, as a deterministic oracle. -/
structure World where
  net : HttpRequest → NetAnswer
  decode : String → String → String

/-- The errors `get`/`post` raise to the caller. -/
inductive ReqError where
  | httpError (status : Nat)
  | connError
deriving DecidableEq

/-- `Response.raise_for_status` raises exactly for 4xx/5xx statuses. -/
def raiseForStatus (status : Nat) : Bool :=
  400 ≤ status && status ≤ 599

/-- `HttpClient.BLOCKED_STATUS_CODES`. -/
def BLOCKED_STATUS_CODES : List Nat := [403, 429, 503]

/-- `TorConfig` as the client sees it: the enabled flag and the proxy URL
presented to `requests`. -/
structure TorCfg where
  enabled : Bool
  proxyUrl : String

/-- The retry configuration mounted on the session by
`HttpClient._create_session`. -/
structure RetryPolicy where
  total : Nat
  backoff_factor : ℚ
  status_forcelist : List Nat

/-- `HttpClient._create_session`'s `Retry(total=3, backoff_factor=0.5,
status_forcelist=[500, 502, 504])`. -/
def create_session_retry : RetryPolicy :=
  ⟨3, 1 / 2, [500, 502, 504]⟩

/-- urllib3's sleep before retry number k+1 under a backoff factor. -/
def backoffDelay (p : RetryPolicy) (k : Nat) : ℚ :=
  p.backoff_factor * 2 ^ k

/-- `HttpClient._get_with_tor`: overwrite `proxies` with the Tor proxies,
default the timeout to 60, issue the GET, raise for status.  Returns the
outcome together with the log of requests put on the wire. -/
def get_with_tor (tor : TorCfg) (w : World) (url : String) (k : Kwargs) :
    Except ReqError String × List HttpRequest :=
  let k := { k with proxies := some tor.proxyUrl }
  let k := k.setdefaultTimeout 60
  let req : HttpRequest := ⟨.get, url, k, none, none⟩
  (match w.net req with
   | .response s body =>
     if raiseForStatus s then .error (.httpError s) else .ok body
   | .connFailure => .error .connError,
   [req])

/-- `HttpClient._post_with_tor`. -/
def post_with_tor (tor : TorCfg) (w : World) (url : String)
    (dataArg paramsArg : Option (List (String × String))) (k : Kwargs) :
    Except ReqError String × List HttpRequest :=
  let k := { k with proxies := some tor.proxyUrl }
  let k := k.setdefaultTimeout 60
  let req : HttpRequest := ⟨.post, url, k, dataArg, paramsArg⟩
  (match w.net req with
   | .response s body =>
     if raiseForStatus s then .error (.httpError s) else .ok body
   | .connFailure => .error .connError,
   [req])

/-- `HttpClient.get`: default `verify` to False and `timeout` to the
`timeout` argument (30 at the Python call sites that omit it), honour
`force_tor`, try the direct connection, and on a blocked status
(403/429/503) or a connection failure retry once through Tor when enabled;
otherwise re-raise. -/
def get (tor : TorCfg) (w : World) (url : String) (force_tor : Bool)
    (timeout : Nat) (k : Kwargs) : Except ReqError String × List HttpRequest :=
  let k := k.setdefaultVerify false
  let k := k.setdefaultTimeout timeout
  if force_tor then get_with_tor tor w url k
  else
    let req : HttpRequest := ⟨.get, url, k, none, none⟩
    match w.net req with
    | .response s body =>
      if raiseForStatus s then
        if BLOCKED_STATUS_CODES.contains s && tor.enabled then
          let r := get_with_tor tor w url k
          (r.1, req :: r.2)
        else (.error (.httpError s), [req])
      else (.ok body, [req])
    | .connFailure =>
      if tor.enabled then
        let r := get_with_tor tor w url k
        (r.1, req :: r.2)
      else (.error .connError, [req])

/-- `HttpClient.post`: same skeleton as `get` with the explicit
`data`/`params` arguments and `_post_with_tor` as the fallback. -/
def post (tor : TorCfg) (w : World) (url : String)
    (dataArg paramsArg : Option (List (String × String))) (force_tor : Bool)
    (timeout : Nat) (k : Kwargs) : Except ReqError String × List HttpRequest :=
  let k := k.setdefaultVerify false
  let k := k.setdefaultTimeout timeout
  if force_tor then post_with_tor tor w url dataArg paramsArg k
  else
    let req : HttpRequest := ⟨.post, url, k, dataArg, paramsArg⟩
    match w.net req with
    | .response s body =>
      if raiseForStatus s then
        if BLOCKED_STATUS_CODES.contains s && tor.enabled then
          let r := post_with_tor tor w url dataArg paramsArg k
          (r.1, req :: r.2)
        else (.error (.httpError s), [req])
      else (.ok body, [req])
    | .connFailure =>
      if tor.enabled then
        let r := post_with_tor tor w url dataArg paramsArg k
        (r.1, req :: r.2)
      else (.error .connError, [req])

/-- `HttpClient.get_text`: GET, then decode the body with the requested
encoding. -/
def get_text (tor : TorCfg) (w : World) (url : String) (encoding : String)
    (k : Kwargs) : Except ReqError String × List HttpRequest :=
  let r := get tor w url false 30 k
  (r.1.map (w.decode encoding), r.2)

/-- `HttpClient.post_text`: despite the name it calls `self.get(url,
params=params, **kwargs)` — the `data` argument is dropped and a GET
carrying `params` is issued (when `kwargs` already held a `params` key the
Python call would raise a duplicate-keyword TypeError, so the modelled
domain is `k.params = none`). -/
def post_text (tor : TorCfg) (w : World) (url : String)
    (dataArg paramsArg : Option (List (String × String))) (encoding : String)
    (k : Kwargs) : Except ReqError String × List HttpRequest :=
  let r := get tor w url false 30 { k with params := paramsArg }
  (r.1.map (w.decode encoding), r.2)

end Http

/-! ## scrapers/base.py (BaseScraper) -/

namespace Scrape

/-- The parse of one listing page, holding exactly what `parse_urls` and
`get_last_page_num` inspect: the `select_one(list_selector)` container with
the href of each `<a href>` link inside it (`none` when the container is
missing), and the `select_one(pagination_selector)` container with, for
each `<a href>` link, the `startPage` regex match on its href (`none` when
the pagination container is missing). -/
structure ListingHtml where
  listContainer : Option (List String)
  paginationLinks : Option (List (Option Nat))

/-- The parse of one detail page: the `select_one(content_selector)`
container's text after the `<br/>`-to-newline rewrite, or `none` when the
container is missing. -/
structure DetailHtml where
  contentText : Option String

/-- A scraped `{"url": ..., "content": ...}` item. -/
structure Item where
  url : String
  content : String
deriving DecidableEq

/-- The site, as deterministic fetch oracles for listing pages (by page
number) and detail pages (by URL); `.error` is an exception escaping
`client.get`. -/
structure World where
  base_url : String
  listingFetch : Nat → Except Unit ListingHtml
  detailFetch : String → Except Unit DetailHtml

/-- `BaseScraper.parse_urls`: a missing listing container degrades to the
empty URL list, otherwise each link's href is prefixed with the base URL. -/
def parse_urls (base_url : String) (h : ListingHtml) : List String :=
  match h.listContainer with
  | none => []
  | some hrefs => hrefs.map (fun href => base_url ++ href)

/-- `BaseScraper.parse_content`: a missing content container degrades to
the empty string, otherwise the container text is stripped. -/
def parse_content (h : DetailHtml) : String :=
  match h.contentText with
  | none => ""
  | some s => s.trim

/-- `BaseScraper.get_last_page_num`: 1 when the pagination container is
missing, when it holds no links, or when the regex finds no page number in
the last link's href; otherwise that number. -/
def get_last_page_num (h : ListingHtml) : Nat :=
  match h.paginationLinks with
  | none => 1
  | some links =>
    match links.getLast? with
    | none => 1
    | some m => m.getD 1

/-- The detail-URL loop body of `BaseScraper.scrape`: fetch each detail
URL, appending `{url, content}`; an exception is logged and the URL
skipped.  Also returns the log of detail URLs fetched. -/
def processUrls (w : World) : List String → List Item × List String
  | [] => ([], [])
  | u :: rest =>
    let tail := processUrls w rest
    match w.detailFetch u with
    | .error _ => (tail.1, u :: tail.2)
    | .ok h => (⟨u, parse_content h⟩ :: tail.1, u :: tail.2)

/-- The page loop of `BaseScraper.scrape`: fetch each listing page (an
exception here propagates), parse its URLs and process them.  Returns the
items with the logs of listing pages and detail URLs fetched. -/
def processPages (w : World) : List Nat → Except Unit (List Item × List Nat × List String)
  | [] => .ok ([], [], [])
  | p :: rest =>
    match w.listingFetch p with
    | .error e => .error e
    | .ok h =>
      let urls := parse_urls w.base_url h
      let done := processUrls w urls
      match processPages w rest with
      | .error e => .error e
      | .ok (items, pageLog, urlLog) =>
        .ok (done.1 ++ items, p :: pageLog, done.2 ++ urlLog)

/-- `BaseScraper.scrape`: fetch listing page 1, read the total page count
from its pagination, clamp it to `max_page`, then run the page loop over
pages 1..clamped.  The returned page log starts with the initial
pagination-discovery fetch of page 1. -/
def scrape (w : World) (max_page : Nat) :
    Except Unit (List Item × List Nat × List String) :=
  match w.listingFetch 1 with
  | .error e => .error e
  | .ok h1 =>
    let last_page := get_last_page_num h1
    let last_page := if last_page > max_page then max_page else last_page
    match processPages w (List.range' 1 last_page) with
    | .error e => .error e
    | .ok (items, pageLog, urlLog) => .ok (items, 1 :: pageLog, urlLog)

end Scrape

/-! ## migration/json_to_pocketbase.py over the Pocketbase store

The `PocketbaseClient` itself (services/pocketbase.py) is not part of the
source tree; its store operations are modelled from the spec (§4.4 and §6),
while the migration loops below are embedded from
migration/json_to_pocketbase.py.  `hashFn` is the content-hash function,
kept abstract.  Database writes are assumed to succeed, matching the
`if result: count += 1` success path. -/

namespace Migrate

/-- A `funeral_raw` record (the fields the dedupe decision touches). -/
structure RawRec where
  content_hash : String
  district : String
  url : String
  update_count : Nat

/-- The persistence boundary: the three record collections, with
`funeral_analyzed` and `funeral_sent` reduced to their content-hash
columns. -/
structure PBStore where
  raw : List RawRec
  analyzed : List String
  sent : List String

/-- Modelled from the spec: `PocketbaseClient.raw_exists` of the missing
services/pocketbase.py — "existence check keyed by content hash and
district". -/
def raw_exists (hashFn : String → String) (st : PBStore)
    (content district : String) : Bool :=
  st.raw.any (fun r => r.content_hash = hashFn content && r.district = district)

/-- Modelled from the spec: `PocketbaseClient.add_raw` — insert a
`funeral_raw` record for the hashed content. -/
def add_raw (hashFn : String → String) (st : PBStore)
    (district url content : String) (update_count : Nat) : PBStore :=
  { st with raw := st.raw ++ [⟨hashFn content, district, url, update_count⟩] }

/-- Modelled from the spec: `PocketbaseClient.get_analyzed_hashes` — the
hash-listing query for `funeral_analyzed`. -/
def get_analyzed_hashes (st : PBStore) : List String := st.analyzed

/-- Modelled from the spec: `PocketbaseClient.get_sent_hashes` — the
hash-listing query for `funeral_sent`. -/
def get_sent_hashes (st : PBStore) : List String := st.sent

/-- Modelled from the spec: `PocketbaseClient.mark_as_sent` — insert a
`funeral_sent` marker for a content hash. -/
def mark_as_sent (st : PBStore) (h : String) : PBStore :=
  { st with sent := st.sent ++ [h] }

/-- One `{"url": ..., "content": ..., "updated": ...}` entry of
DB_RAW.json. -/
structure RawJsonItem where
  url : String
  content : String
  updated : Nat

/-- The inner loop body of `migrate_raw_data`: skip when
`db.raw_exists(content, district)` holds, else `db.add_raw` and count. -/
def migrate_raw_item (hashFn : String → String) (district : String)
    (acc : PBStore × Nat) (item : RawJsonItem) : PBStore × Nat :=
  if raw_exists hashFn acc.1 item.content district then acc
  else (add_raw hashFn acc.1 district item.url item.content item.updated,
        acc.2 + 1)

/-- `migrate_raw_data`: fold the per-district item lists of DB_RAW.json
into the store. -/
def migrate_raw_data (hashFn : String → String) (st : PBStore)
    (data : List (String × List RawJsonItem)) : PBStore × Nat :=
  data.foldl (fun acc p => p.2.foldl (migrate_raw_item hashFn p.1) acc) (st, 0)

/-- One entry of DB_ANALYZE.json's `data` list (the fields the migration
filter touches). -/
structure AnalyzedJsonItem where
  url : String
  updated : Nat
  content : List (String × PyVal)
  hash : String
  goo : String

/-- The `to_migrate` filter of `migrate_analyzed_data`: keep exactly the
items whose `hash` is not among the existing analyzed hashes. -/
def analyzed_to_migrate (st : PBStore) (items : List AnalyzedJsonItem) :
    List AnalyzedJsonItem :=
  items.filter (fun it => !((get_analyzed_hashes st).contains it.hash))

/-- `migrate_sent_data`: filter DB_SENDED.json's hash list against the
existing sent hashes, then `mark_as_sent` each survivor. -/
def migrate_sent_data (st : PBStore) (hashes : List String) : PBStore × Nat :=
  let existing := get_sent_hashes st
  let to_migrate := hashes.filter (fun h => !(existing.contains h))
  to_migrate.foldl (fun acc h => (mark_as_sent acc.1 h, acc.2 + 1)) (st, 0)

end Migrate

/-! ## Concrete sample inputs used to instantiate the development -/

/-- A sample extracted-content dictionary: one scalar, one `None`, one
no-value string, one nested dict, one list, four missing tags. -/
def sampleContent : List (String × PyVal) :=
  [("이름", PyVal.str "홍길동"), ("생년월일", PyVal.none_),
   ("거주지", PyVal.str "없음"),
   ("장례일정", PyVal.dict [("일시", PyVal.str "2024-01-01"),
                            ("장소", PyVal.str "부산")]),
   ("발인일시", PyVal.arr [PyVal.str "오전", PyVal.num 9])]

/-- A sample analysis-result dictionary wrapping `sampleContent`. -/
def sampleData : List (String × PyVal) :=
  [("url", PyVal.str "http://x"), ("content", PyVal.dict sampleContent)]

/-- A delivery oracle on which every send succeeds. -/
def sampleOracle : String → String → Bool := fun _ _ => true

/-- A delivery oracle on which only the combined channel fails. -/
def failMainOracle : String → String → Bool := fun chat _ => chat ≠ "-400999"

/-- A sample Telegram configuration with the real district channel table. -/
def sampleTgCfg : TelegramCfg := ⟨"-400999", DISTRICT_CHANNEL_IDS⟩

/-- A Telegram configuration whose district channel table is empty. -/
def emptyChannelCfg : TelegramCfg := ⟨"-400999", []⟩

/-- Tor disabled, with the default local proxy URL. -/
def torOff : Http.TorCfg := ⟨false, "socks5://127.0.0.1:9050"⟩

/-- Tor enabled, with the default local proxy URL. -/
def torOn : Http.TorCfg := ⟨true, "socks5://127.0.0.1:9050"⟩

/-- A network on which every request completes with HTTP 200. -/
def okWorld : Http.World :=
  ⟨fun _ => .response 200 "ok", fun enc body => enc ++ ":" ++ body⟩

/-- A network on which direct requests are answered HTTP 403 and proxied
requests complete with HTTP 200. -/
def blockedWorld : Http.World :=
  ⟨fun req => if req.kwargs.proxies.isSome then .response 200 "ok"
    else .response 403 "blocked",
   fun enc body => enc ++ ":" ++ body⟩

/-- The direct GET request `get` puts on the wire for url "u" with empty
kwargs. -/
def directGetReq : Http.HttpRequest :=
  ⟨.get, "u", ⟨some false, some 30, none, none⟩, none, none⟩

/-- The proxied GET request the Tor fallback puts on the wire for url "u"
with empty kwargs. -/
def torGetReq : Http.HttpRequest :=
  ⟨.get, "u", ⟨some false, some 30, none, some "socks5://127.0.0.1:9050"⟩,
   none, none⟩

/-- The direct POST request `post` puts on the wire for url "u" with empty
kwargs and no data/params. -/
def directPostReq : Http.HttpRequest :=
  ⟨.post, "u", ⟨some false, some 30, none, none⟩, none, none⟩

/-- A site whose page 1 lists two detail links and shows pagination up to
page 3, and on which any other listing page fails to fetch. -/
def c3World : Scrape.World :=
  ⟨"http://base",
   fun p => if p = 1
     then .ok ⟨some ["/a", "/b"], some [some 1, some 2, some 3]⟩
     else .error (),
   fun u => .ok ⟨some ("body of " ++ u)⟩⟩

/-- A site exercising the degradation paths: listing page 1 has no list
container, the detail URL "bad" fails to fetch, "empty" has no content
container, and every other detail URL has body " 본문 ". -/
def c4World : Scrape.World :=
  ⟨"",
   fun p => if p = 1 then .ok ⟨none, none⟩ else .ok ⟨some ["/x"], none⟩,
   fun u => if u = "bad" then .error ()
     else if u = "empty" then .ok ⟨none⟩
     else .ok ⟨some " 본문 "⟩⟩

/-- A sample content-hash function (prefix marker, injective on
contents). -/
def sampleHashFn : String → String := fun c => "#" ++ c

/-- A sample store holding one raw record for district "북구", one
analyzed hash and one sent hash. -/
def sampleStore : Migrate.PBStore :=
  ⟨[⟨"#c1", "북구", "u1", 0⟩], ["a1"], ["s1"]⟩

/-- A DB_RAW.json item whose content hashes to the stored "#c1". -/
def sampleRawItem : Migrate.RawJsonItem := ⟨"u1", "c1", 0⟩

/-- A DB_ANALYZE.json item whose hash is already analyzed. -/
def sampleAnalyzedItem : Migrate.AnalyzedJsonItem := ⟨"u1", 0, [], "a1", "북구"⟩

/-! ## General lemmas -/

/-- Looking a key up in a map built over a key list hits the key's image
exactly when the key is in the list. -/
theorem lookup_keyMap {α : Type} (f : String → α) (a : String) :
    ∀ l : List String, List.lookup a (l.map fun t => (t, f t)) =
      if a ∈ l then some (f a) else none := by
  intro l
  induction l with
  | nil => simp
  | cons t ts ih =>
    by_cases h : a = t
    · subst h
      simp [List.lookup]
    · have hb : (a == t) = false := beq_eq_false_iff_ne.mpr h
      simp [List.lookup, h, hb, ih]

/-- `convEntries` is the map of the "key:value" line over the entries. -/
theorem convEntries_eq_map (l : List (String × PyVal)) :
    convEntries l = l.map (fun p => p.1 ++ ":" ++ convert_value p.2) := by
  induction l with
  | nil => rfl
  | cons p rest ih =>
    cases p
    simp [convEntries, ih]

/-! ## Claim C1 -/

/-- C1: for an analysis-result dictionary whose "content" entry is a
dictionary, `clean_analyzed_data` returns a mapping whose key list is
exactly the fixed nine-tag set; a tag missing from the content, mapped to
`None`, or whose converted value is one of the no-value strings is bound
to the failure sentinel "추출 실패"; a dict value flattens to "key:value"
lines joined by newline and a list value to the comma-joined
stringification of its elements. -/
theorem clean_analyzed_data_fixed_tags (data es : List (String × PyVal))
    (hc : (List.lookup "content" data).getD (PyVal.dict []) = PyVal.dict es) :
    ∃ out, clean_analyzed_data data = some out ∧
      out.map Prod.fst = EXTRACTION_TAGS ∧
      (∀ tag, tag ∈ EXTRACTION_TAGS →
        (List.lookup tag es = none ∨ List.lookup tag es = some PyVal.none_ ∨
          (∃ v, List.lookup tag es = some v ∧
            some (convert_value v) ∈ emptyMarkers)) →
        List.lookup tag out = some "추출 실패") ∧
      (∀ tag l, tag ∈ EXTRACTION_TAGS →
        List.lookup tag es = some (PyVal.dict l) →
        some (convert_value (PyVal.dict l)) ∉ emptyMarkers →
        List.lookup tag out = some (String.intercalate "\n"
          (l.map (fun p => p.1 ++ ":" ++ convert_value p.2)))) ∧
      (∀ tag xs, tag ∈ EXTRACTION_TAGS →
        List.lookup tag es = some (PyVal.arr xs) →
        some (convert_value (PyVal.arr xs)) ∉ emptyMarkers →
        List.lookup tag out =
          some (String.intercalate ", " (xs.map pyStr))) := by
  refine ⟨EXTRACTION_TAGS.map (fun tag => (tag, cleanValue es tag)), ?_, ?_, ?_, ?_, ?_⟩
  · unfold clean_analyzed_data
    rw [hc]
  · rfl
  · intro tag htag hcond
    rw [lookup_keyMap (cleanValue es) tag EXTRACTION_TAGS, if_pos htag]
    rcases hcond with h | h | ⟨v, hv, hm⟩
    · simp [cleanValue, h, convert_value]
    · simp [cleanValue, h, convert_value]
    · simp [cleanValue, hv, hm]
  · intro tag l htag hv hm
    rw [lookup_keyMap (cleanValue es) tag EXTRACTION_TAGS, if_pos htag]
    simp only [convert_value, convEntries_eq_map] at hm
    simp [cleanValue, hv, hm, convert_value, convEntries_eq_map]
  · intro tag xs htag hv hm
    rw [lookup_keyMap (cleanValue es) tag EXTRACTION_TAGS, if_pos htag]
    simp only [convert_value] at hm
    simp [cleanValue, hv, hm, convert_value]

/-- C1 witness: `clean_analyzed_data` on `sampleData` — all nine tags
present, the missing/None/no-value tags carry the failure sentinel, the
nested dict and list are flattened. -/
theorem clean_analyzed_data_fixed_tags_w :
    ∃ out, clean_analyzed_data sampleData = some out ∧
      out.map Prod.fst = EXTRACTION_TAGS ∧
      List.lookup "사망일시" out = some "추출 실패" ∧
      List.lookup "생년월일" out = some "추출 실패" ∧
      List.lookup "거주지" out = some "추출 실패" ∧
      List.lookup "장례일정" out = some "일시:2024-01-01\n장소:부산" ∧
      List.lookup "발인일시" out = some "오전, 9" := by
  obtain ⟨out, h0, h1, hsent, hdict, harr⟩ :=
    clean_analyzed_data_fixed_tags sampleData sampleContent rfl
  exact ⟨out, h0, h1,
    hsent "사망일시" (by decide) (Or.inl rfl),
    hsent "생년월일" (by decide) (Or.inr (Or.inl rfl)),
    hsent "거주지" (by decide) (Or.inr (Or.inr ⟨PyVal.str "없음", rfl, by decide⟩)),
    hdict "장례일정" _ (by decide) rfl (by decide),
    harr "발인일시" _ (by decide) rfl (by decide)⟩

/-! ## Claim C2 -/

/-- C2: when the district and its channel resolve, the notification is
sent to the district channel and to the combined channel (both attempts
always made), and the result is true exactly when both sends succeed. -/
theorem send_funeral_notification_both_channels
    (oracle : String → String → Bool) (cfg : TelegramCfg) (now : TimeOfDay)
    (district_kor url : String) (update_count : Nat)
    (analyzed_data : List (String × String)) (district_eng channel_id : String)
    (h1 : List.lookup district_kor DISTRICT_NAMES_KOR_TO_ENG = some district_eng)
    (h2 : district_eng ≠ "")
    (h3 : List.lookup district_eng cfg.district_channels = some channel_id)
    (h4 : channel_id ≠ "") :
    send_funeral_notification oracle cfg now district_kor url update_count
        analyzed_data =
      (oracle channel_id
          (build_funeral_message district_kor url update_count analyzed_data) &&
        oracle cfg.funeral_main
          (build_funeral_message district_kor url update_count analyzed_data),
       [⟨channel_id,
          build_funeral_message district_kor url update_count analyzed_data,
          is_night_time now⟩,
        ⟨cfg.funeral_main,
          build_funeral_message district_kor url update_count analyzed_data,
          is_night_time now⟩]) ∧
    ((send_funeral_notification oracle cfg now district_kor url update_count
        analyzed_data).1 = true ↔
      (oracle channel_id
          (build_funeral_message district_kor url update_count analyzed_data) = true ∧
        oracle cfg.funeral_main
          (build_funeral_message district_kor url update_count analyzed_data) = true)) := by
  have he : send_funeral_notification oracle cfg now district_kor url
      update_count analyzed_data =
      (oracle channel_id
          (build_funeral_message district_kor url update_count analyzed_data) &&
        oracle cfg.funeral_main
          (build_funeral_message district_kor url update_count analyzed_data),
       [⟨channel_id,
          build_funeral_message district_kor url update_count analyzed_data,
          is_night_time now⟩,
        ⟨cfg.funeral_main,
          build_funeral_message district_kor url update_count analyzed_data,
          is_night_time now⟩]) := by
    unfold send_funeral_notification
    rw [h1]
    simp [h2, h3, h4, send_message]
  exact ⟨he, by rw [he]; simp [Bool.and_eq_true]⟩

/-- C2 witness: the "북구" district against its real channel, with an
oracle failing only on the combined channel — both sends are attempted and
the result is false. -/
theorem send_funeral_notification_both_channels_w :
    (send_funeral_notification failMainOracle sampleTgCfg ⟨12, 0, 0⟩ "북구"
        "http://x" 0 [("이름", "홍길동")] =
      (failMainOracle "-4130128744"
          (build_funeral_message "북구" "http://x" 0 [("이름", "홍길동")]) &&
        failMainOracle sampleTgCfg.funeral_main
          (build_funeral_message "북구" "http://x" 0 [("이름", "홍길동")]),
       [⟨"-4130128744",
          build_funeral_message "북구" "http://x" 0 [("이름", "홍길동")],
          is_night_time ⟨12, 0, 0⟩⟩,
        ⟨sampleTgCfg.funeral_main,
          build_funeral_message "북구" "http://x" 0 [("이름", "홍길동")],
          is_night_time ⟨12, 0, 0⟩⟩]) ∧
      ((send_funeral_notification failMainOracle sampleTgCfg ⟨12, 0, 0⟩ "북구"
          "http://x" 0 [("이름", "홍길동")]).1 = true ↔
        (failMainOracle "-4130128744"
            (build_funeral_message "북구" "http://x" 0 [("이름", "홍길동")]) = true ∧
          failMainOracle sampleTgCfg.funeral_main
            (build_funeral_message "북구" "http://x" 0 [("이름", "홍길동")]) = true))) ∧
    (send_funeral_notification failMainOracle sampleTgCfg ⟨12, 0, 0⟩ "북구"
        "http://x" 0 [("이름", "홍길동")]).1 = false ∧
    ((send_funeral_notification failMainOracle sampleTgCfg ⟨12, 0, 0⟩ "북구"
        "http://x" 0 [("이름", "홍길동")]).2.map SendRec.chat_id) =
      ["-4130128744", "-400999"] :=
  ⟨send_funeral_notification_both_channels failMainOracle sampleTgCfg
      ⟨12, 0, 0⟩ "북구" "http://x" 0 [("이름", "홍길동")] "BUKGU" "-4130128744"
      rfl (by decide) rfl (by decide),
    by decide, by decide⟩

/-! ## Claim C7 -/

/-- C7: a send is silent exactly on KST times of day at or after 20:00 or
strictly before 07:00 (with the four boundary instants as stated), and the
night flag changes neither the delivery result nor the chat/messages of
the attempted sends — only their silent marking. -/
theorem is_night_time_policy :
    is_night_time ⟨19, 59, 59⟩ = false ∧
    is_night_time ⟨20, 0, 0⟩ = true ∧
    is_night_time ⟨6, 59, 59⟩ = true ∧
    is_night_time ⟨7, 0, 0⟩ = false ∧
    (∀ t : TimeOfDay, t.minute < 60 → t.second < 60 →
      (is_night_time t = true ↔
        72000 ≤ t.hour * 3600 + t.minute * 60 + t.second ∨
          t.hour * 3600 + t.minute * 60 + t.second < 25200)) ∧
    (∀ (oracle : String → String → Bool) (cfg : TelegramCfg)
        (d url : String) (cnt : Nat) (data : List (String × String))
        (now now' : TimeOfDay),
      (send_funeral_notification oracle cfg now d url cnt data).1 =
        (send_funeral_notification oracle cfg now' d url cnt data).1 ∧
      ((send_funeral_notification oracle cfg now d url cnt data).2.map
          (fun r => (r.chat_id, r.text))) =
        ((send_funeral_notification oracle cfg now' d url cnt data).2.map
          (fun r => (r.chat_id, r.text))) ∧
      (∀ r ∈ (send_funeral_notification oracle cfg now d url cnt data).2,
        r.silent = is_night_time now)) := by
  refine ⟨by decide, by decide, by decide, by decide, ?_, ?_⟩
  · intro t hm hs
    simp [is_night_time, timeLtb]
    omega
  · intro oracle cfg d url cnt data now now'
    cases h1 : List.lookup d DISTRICT_NAMES_KOR_TO_ENG with
    | none => simp [send_funeral_notification, h1]
    | some de =>
      by_cases h2 : de = ""
      · simp [send_funeral_notification, h1, h2]
      · cases h3 : List.lookup de cfg.district_channels with
        | none => simp [send_funeral_notification, h1, h2, h3]
        | some ch =>
          by_cases h4 : ch = ""
          · simp [send_funeral_notification, h1, h2, h3, h4]
          · simp [send_funeral_notification, h1, h2, h3, h4, send_message]

/-- C7 witness: the characterization at the concrete time 23:30:00, and
the night-independence of delivery for a concrete send at 21:00 versus
12:00. -/
theorem is_night_time_policy_w :
    (is_night_time ⟨23, 30, 0⟩ = true ↔
      72000 ≤ 23 * 3600 + 30 * 60 + 0 ∨ 23 * 3600 + 30 * 60 + 0 < 25200) ∧
    ((send_funeral_notification sampleOracle sampleTgCfg ⟨21, 0, 0⟩ "북구" "u"
        0 []).1 =
      (send_funeral_notification sampleOracle sampleTgCfg ⟨12, 0, 0⟩ "북구" "u"
        0 []).1 ∧
    ((send_funeral_notification sampleOracle sampleTgCfg ⟨21, 0, 0⟩ "북구" "u"
        0 []).2.map (fun r => (r.chat_id, r.text))) =
      ((send_funeral_notification sampleOracle sampleTgCfg ⟨12, 0, 0⟩ "북구" "u"
        0 []).2.map (fun r => (r.chat_id, r.text))) ∧
    (∀ r ∈ (send_funeral_notification sampleOracle sampleTgCfg ⟨21, 0, 0⟩ "북구"
        "u" 0 []).2, r.silent = is_night_time ⟨21, 0, 0⟩)) :=
  ⟨is_night_time_policy.2.2.2.2.1 ⟨23, 30, 0⟩ (by decide) (by decide),
    is_night_time_policy.2.2.2.2.2 sampleOracle sampleTgCfg "북구" "u" 0 []
      ⟨21, 0, 0⟩ ⟨12, 0, 0⟩⟩

/-! ## Claim C9 -/

/-- C9: when the Korean district name is absent from the district table,
or the mapped district has no channel configured, the notification
returns false with no send attempted. -/
theorem send_funeral_notification_guard
    (oracle : String → String → Bool) (cfg : TelegramCfg) (now : TimeOfDay)
    (d url : String) (cnt : Nat) (data : List (String × String)) :
    (List.lookup d DISTRICT_NAMES_KOR_TO_ENG = none →
      send_funeral_notification oracle cfg now d url cnt data = (false, [])) ∧
    (∀ de, List.lookup d DISTRICT_NAMES_KOR_TO_ENG = some de → de ≠ "" →
      List.lookup de cfg.district_channels = none →
      send_funeral_notification oracle cfg now d url cnt data = (false, [])) := by
  constructor
  · intro h
    simp [send_funeral_notification, h]
  · intro de h1 h2 h3
    simp [send_funeral_notification, h1, h2, h3]

/-- C9 witness: the unknown district "서울구" under the full channel
table, and the known district "북구" under an empty channel table — both
return false with an empty send log. -/
theorem send_funeral_notification_guard_w :
    send_funeral_notification sampleOracle sampleTgCfg ⟨12, 0, 0⟩ "서울구" "u"
        0 [] = (false, []) ∧
    send_funeral_notification sampleOracle emptyChannelCfg ⟨12, 0, 0⟩ "북구"
        "u" 0 [] = (false, []) :=
  ⟨(send_funeral_notification_guard sampleOracle sampleTgCfg ⟨12, 0, 0⟩ "서울구"
      "u" 0 []).1 rfl,
    (send_funeral_notification_guard sampleOracle emptyChannelCfg ⟨12, 0, 0⟩
      "북구" "u" 0 []).2 "BUKGU" rfl (by decide) rfl⟩

/-! ## HTTP client lemmas -/

/-- `setdefault('verify', v)` leaves an explicit value and fills the
default otherwise. -/
theorem setdefaultVerify_fields (k : Http.Kwargs) (v : Bool) :
    (k.setdefaultVerify v).verify = some (k.verify.getD v) ∧
    (k.setdefaultVerify v).timeout = k.timeout ∧
    (k.setdefaultVerify v).params = k.params ∧
    (k.setdefaultVerify v).proxies = k.proxies := by
  cases hk : k.verify <;> simp [Http.Kwargs.setdefaultVerify, hk]

/-- `setdefault('timeout', t)` fills the default and touches nothing
else. -/
theorem setdefaultTimeout_fields (k : Http.Kwargs) (t : Nat) :
    (k.setdefaultTimeout t).verify = k.verify ∧
    (k.setdefaultTimeout t).timeout = some (k.timeout.getD t) ∧
    (k.setdefaultTimeout t).params = k.params ∧
    (k.setdefaultTimeout t).proxies = k.proxies := by
  cases hk : k.timeout <;> simp [Http.Kwargs.setdefaultTimeout, hk]

/-- The Tor GET helper puts exactly one request on the wire: a GET through
the Tor proxies whose remaining kwargs are those it was handed. -/
theorem get_with_tor_log (tor : Http.TorCfg) (w : Http.World) (url : String)
    (k : Http.Kwargs) :
    (Http.get_with_tor tor w url k).2 =
      [⟨Http.Method.get, url,
        Http.Kwargs.setdefaultTimeout { k with proxies := some tor.proxyUrl } 60,
        none, none⟩] := rfl

/-- The Tor POST helper puts exactly one POST request on the wire. -/
theorem post_with_tor_log (tor : Http.TorCfg) (w : Http.World) (url : String)
    (dataArg paramsArg : Option (List (String × String))) (k : Http.Kwargs) :
    (Http.post_with_tor tor w url dataArg paramsArg k).2 =
      [⟨Http.Method.post, url,
        Http.Kwargs.setdefaultTimeout { k with proxies := some tor.proxyUrl } 60,
        dataArg, paramsArg⟩] := rfl

/-- Every request `get` puts on the wire is a GET whose `verify` kwarg is
the caller's value, defaulted to `false`. -/
theorem get_log_shape (tor : Http.TorCfg) (w : Http.World) (url : String)
    (f : Bool) (t : Nat) (k : Http.Kwargs) :
    ∀ r ∈ (Http.get tor w url f t k).2,
      r.method = Http.Method.get ∧
      r.kwargs.verify = some (k.verify.getD false) := by
  intro r hr
  have hv : ((k.setdefaultVerify false).setdefaultTimeout t).verify =
      some (k.verify.getD false) := by
    rw [(setdefaultTimeout_fields _ t).1, (setdefaultVerify_fields k false).1]
  have htor : ∀ r' ∈ (Http.get_with_tor tor w url
      ((k.setdefaultVerify false).setdefaultTimeout t)).2,
      r'.method = Http.Method.get ∧
      r'.kwargs.verify = some (k.verify.getD false) := by
    intro r' hr'
    rw [get_with_tor_log] at hr'
    simp at hr'
    subst hr'
    refine ⟨rfl, ?_⟩
    rw [(setdefaultTimeout_fields _ 60).1]
    exact hv
  unfold Http.get at hr
  by_cases hf : f = true
  · rw [if_pos hf] at hr
    exact htor r hr
  · rw [if_neg hf] at hr
    dsimp only at hr
    cases hnet : w.net ⟨Http.Method.get, url,
        (k.setdefaultVerify false).setdefaultTimeout t, none, none⟩ with
    | response s body =>
      rw [hnet] at hr
      dsimp only at hr
      by_cases hs : Http.raiseForStatus s = true
      · rw [if_pos hs] at hr
        by_cases hb : (Http.BLOCKED_STATUS_CODES.contains s && tor.enabled) = true
        · rw [if_pos hb] at hr
          simp at hr
          rcases hr with hr | hr
          · subst hr
            exact ⟨rfl, hv⟩
          · exact htor r hr
        · rw [if_neg hb] at hr
          simp at hr
          subst hr
          exact ⟨rfl, hv⟩
      · rw [if_neg hs] at hr
        simp at hr
        subst hr
        exact ⟨rfl, hv⟩
    | connFailure =>
      rw [hnet] at hr
      dsimp only at hr
      by_cases he : tor.enabled = true
      · rw [if_pos he] at hr
        simp at hr
        rcases hr with hr | hr
        · subst hr
          exact ⟨rfl, hv⟩
        · exact htor r hr
      · rw [if_neg he] at hr
        simp at hr
        subst hr
        exact ⟨rfl, hv⟩

/-- Every request `post` puts on the wire is a POST whose `verify` kwarg
is the caller's value, defaulted to `false`. -/
theorem post_log_shape (tor : Http.TorCfg) (w : Http.World) (url : String)
    (dataArg paramsArg : Option (List (String × String))) (f : Bool) (t : Nat)
    (k : Http.Kwargs) :
    ∀ r ∈ (Http.post tor w url dataArg paramsArg f t k).2,
      r.method = Http.Method.post ∧
      r.kwargs.verify = some (k.verify.getD false) := by
  intro r hr
  have hv : ((k.setdefaultVerify false).setdefaultTimeout t).verify =
      some (k.verify.getD false) := by
    rw [(setdefaultTimeout_fields _ t).1, (setdefaultVerify_fields k false).1]
  have htor : ∀ r' ∈ (Http.post_with_tor tor w url dataArg paramsArg
      ((k.setdefaultVerify false).setdefaultTimeout t)).2,
      r'.method = Http.Method.post ∧
      r'.kwargs.verify = some (k.verify.getD false) := by
    intro r' hr'
    rw [post_with_tor_log] at hr'
    simp at hr'
    subst hr'
    refine ⟨rfl, ?_⟩
    rw [(setdefaultTimeout_fields _ 60).1]
    exact hv
  unfold Http.post at hr
  by_cases hf : f = true
  · rw [if_pos hf] at hr
    exact htor r hr
  · rw [if_neg hf] at hr
    dsimp only at hr
    cases hnet : w.net ⟨Http.Method.post, url,
        (k.setdefaultVerify false).setdefaultTimeout t, dataArg, paramsArg⟩ with
    | response s body =>
      rw [hnet] at hr
      dsimp only at hr
      by_cases hs : Http.raiseForStatus s = true
      · rw [if_pos hs] at hr
        by_cases hb : (Http.BLOCKED_STATUS_CODES.contains s && tor.enabled) = true
        · rw [if_pos hb] at hr
          simp at hr
          rcases hr with hr | hr
          · subst hr
            exact ⟨rfl, hv⟩
          · exact htor r hr
        · rw [if_neg hb] at hr
          simp at hr
          subst hr
          exact ⟨rfl, hv⟩
      · rw [if_neg hs] at hr
        simp at hr
        subst hr
        exact ⟨rfl, hv⟩
    | connFailure =>
      rw [hnet] at hr
      dsimp only at hr
      by_cases he : tor.enabled = true
      · rw [if_pos he] at hr
        simp at hr
        rcases hr with hr | hr
        · subst hr
          exact ⟨rfl, hv⟩
        · exact htor r hr
      · rw [if_neg he] at hr
        simp at hr
        subst hr
        exact ⟨rfl, hv⟩

/-! ## Claim C8 -/

/-- C8: `post_text` issues a GET carrying its `params` argument — it
equals `get_text` at the same url, params and encoding (on its Python
domain, where `kwargs` holds no `params` key), and no request it puts on
the wire is a POST. -/
theorem post_text_is_get (tor : Http.TorCfg) (w : Http.World) (url : String)
    (dataArg paramsArg : Option (List (String × String))) (encoding : String)
    (k : Http.Kwargs) (hp : k.params = none) :
    Http.post_text tor w url dataArg paramsArg encoding k =
      Http.get_text tor w url encoding { k with params := paramsArg } ∧
    ∀ r ∈ (Http.post_text tor w url dataArg paramsArg encoding k).2,
      r.method = Http.Method.get := by
  refine ⟨rfl, ?_⟩
  intro r hr
  exact (get_log_shape tor w url false 30 { k with params := paramsArg } r hr).1

/-- C8 witness: a concrete `post_text` call agrees with the corresponding
`get_text` call and logs only GET requests. -/
theorem post_text_is_get_w :
    (Http.post_text torOff okWorld "u" (some [("a", "b")])
        (some [("page", "2")]) "utf-8" Http.Kwargs.empty =
      Http.get_text torOff okWorld "u" "utf-8"
        { Http.Kwargs.empty with params := some [("page", "2")] }) ∧
    ∀ r ∈ (Http.post_text torOff okWorld "u" (some [("a", "b")])
        (some [("page", "2")]) "utf-8" Http.Kwargs.empty).2,
      r.method = Http.Method.get :=
  post_text_is_get torOff okWorld "u" (some [("a", "b")])
    (some [("page", "2")]) "utf-8" Http.Kwargs.empty rfl

/-! ## Claim C10 -/

/-- C10: on every code path of `get` and `post` — direct or through Tor —
each request put on the wire carries `verify` equal to the caller's value
defaulted to `False`; in particular, with no caller override every request
has `verify = False`. -/
theorem http_verify_default (tor : Http.TorCfg) (w : Http.World)
    (url : String) (dataArg paramsArg : Option (List (String × String)))
    (f : Bool) (t : Nat) (k : Http.Kwargs) :
    (∀ r ∈ (Http.get tor w url f t k).2,
      r.kwargs.verify = some (k.verify.getD false)) ∧
    (∀ r ∈ (Http.post tor w url dataArg paramsArg f t k).2,
      r.kwargs.verify = some (k.verify.getD false)) :=
  ⟨fun r hr => (get_log_shape tor w url f t k r hr).2,
   fun r hr => (post_log_shape tor w url dataArg paramsArg f t k r hr).2⟩

/-- C10 witness: the concrete direct GET, Tor-fallback GET and direct POST
requests all carry `verify = False`. -/
theorem http_verify_default_w :
    directGetReq.kwargs.verify = some false ∧
    torGetReq.kwargs.verify = some false ∧
    directPostReq.kwargs.verify = some false :=
  ⟨(http_verify_default torOff okWorld "u" none none false 30
      Http.Kwargs.empty).1 directGetReq (by decide),
   (http_verify_default torOn blockedWorld "u" none none false 30
      Http.Kwargs.empty).1 torGetReq (by decide),
   (http_verify_default torOff okWorld "u" none none false 30
      Http.Kwargs.empty).2 directPostReq (by decide)⟩

/-! ## Claim C6 -/

/-- C6: the session retry policy is 3 retries with backoff factor 0.5 over
statuses 500/502/504, and at the failing input — a direct GET answered
HTTP 403 with Tor enabled and the default 30s timeout — the request is
retried exactly once through the Tor proxy, but that proxied request
carries the unchanged 30-second timeout: `get` has already stored the 30s
default into kwargs, so the 60-second `setdefault` of `_get_with_tor`
never fires. -/
theorem get_tor_retry_timeout_unchanged :
    Http.create_session_retry.total = 3 ∧
    Http.create_session_retry.backoff_factor = 1 / 2 ∧
    Http.create_session_retry.status_forcelist = [500, 502, 504] ∧
    (Http.get torOn blockedWorld "http://u" false 30 Http.Kwargs.empty).2 =
      [⟨Http.Method.get, "http://u", ⟨some false, some 30, none, none⟩,
        none, none⟩,
       ⟨Http.Method.get, "http://u",
        ⟨some false, some 30, none, some "socks5://127.0.0.1:9050"⟩,
        none, none⟩] ∧
    (Http.get torOn blockedWorld "http://u" false 30 Http.Kwargs.empty).1 =
      Except.ok "ok" ∧
    (Http.get_with_tor torOn blockedWorld "http://u"
        ⟨some false, none, none, none⟩).2.map
      (fun r => r.kwargs.timeout) = [some 60] := by
  refine ⟨rfl, rfl, rfl, by decide, rfl, by decide⟩

/-! ## Scraper lemmas and claims C3, C4 -/

/-- When every listing page in the list fetches successfully, the page
loop succeeds and its listing-fetch log is exactly that list of pages. -/
theorem processPages_all_ok (w : Scrape.World) :
    ∀ pages : List Nat,
      (∀ p ∈ pages, ∃ h, w.listingFetch p = Except.ok h) →
      ∃ items pageLog urlLog,
        Scrape.processPages w pages = .ok (items, pageLog, urlLog) ∧
        pageLog = pages := by
  intro pages
  induction pages with
  | nil => exact fun _ => ⟨[], [], [], rfl, rfl⟩
  | cons p rest ih =>
    intro hall
    obtain ⟨h, hp⟩ := hall p (List.mem_cons_self p rest)
    obtain ⟨items, pageLog, urlLog, hok, hlog⟩ :=
      ih (fun q hq => hall q (List.mem_cons_of_mem p hq))
    refine ⟨(Scrape.processUrls w (Scrape.parse_urls w.base_url h)).1 ++ items,
      p :: pageLog,
      (Scrape.processUrls w (Scrape.parse_urls w.base_url h)).2 ++ urlLog,
      ?_, by rw [hlog]⟩
    simp [Scrape.processPages, hp, hok]

/-- C3: `scrape` fetches listing page 1, reads the page count from its
pagination, and iterates exactly over pages 1..min(discovered, maxPages):
when every such page fetches, the run succeeds and the listing-fetch log
is page 1 (the discovery fetch) followed by exactly that range. -/
theorem scrape_clamps_pages (w : Scrape.World) (max_page : Nat)
    (h1 : Scrape.ListingHtml) (hf : w.listingFetch 1 = .ok h1)
    (hall : ∀ p ∈ List.range' 1 (min (Scrape.get_last_page_num h1) max_page),
      ∃ h, w.listingFetch p = Except.ok h) :
    ∃ items urlLog, Scrape.scrape w max_page =
      .ok (items,
        1 :: List.range' 1 (min (Scrape.get_last_page_num h1) max_page),
        urlLog) := by
  obtain ⟨items, pageLog, urlLog, hok, hlog⟩ := processPages_all_ok w _ hall
  refine ⟨items, urlLog, ?_⟩
  unfold Scrape.scrape
  rw [hf]
  dsimp only
  have hclamp : (if Scrape.get_last_page_num h1 > max_page then max_page
      else Scrape.get_last_page_num h1) =
      min (Scrape.get_last_page_num h1) max_page := by
    by_cases hgt : Scrape.get_last_page_num h1 > max_page
    · rw [if_pos hgt]
      omega
    · rw [if_neg hgt]
      omega
  rw [hclamp, hok, hlog]

/-- C3 witness: a listing page with 2 detail links and pagination showing
3 pages, scraped with maxPages 1 — exactly the two items of page 1 come
back, the listing fetches are [1, 1], and every other listing page is
unfetchable (so the run's success itself shows pages 2 and 3 were never
fetched). -/
theorem scrape_clamps_pages_w :
    (∃ items urlLog, Scrape.scrape c3World 1 =
      .ok (items,
        1 :: List.range' 1 (min (Scrape.get_last_page_num
          ⟨some ["/a", "/b"], some [some 1, some 2, some 3]⟩) 1),
        urlLog)) ∧
    Scrape.scrape c3World 1 =
      .ok ([⟨"http://base/a", ("body of http://base/a").trim⟩,
            ⟨"http://base/b", ("body of http://base/b").trim⟩],
           [1, 1], ["http://base/a", "http://base/b"]) ∧
    (∀ p, p ≠ 1 → c3World.listingFetch p = .error ()) :=
  ⟨scrape_clamps_pages c3World 1 ⟨some ["/a", "/b"], some [some 1, some 2, some 3]⟩
      rfl
      (by
        intro p hp
        simp at hp
        have hp1 : p = 1 := by omega
        subst hp1
        exact ⟨_, rfl⟩),
   rfl,
   by
     intro p hp
     simp [c3World, hp]⟩

/-- C4: the page and URL loops continue past individual failures — a
detail URL whose fetch raises is skipped (its log entry made, no item, the
remaining URLs processed), a detail page without a content container
yields an item with empty content, and a listing page without a list
container contributes no items while later pages still run. -/
theorem scrape_continues_past_failures (w : Scrape.World) :
    (∀ u us e, w.detailFetch u = .error e →
      (Scrape.processUrls w (u :: us)).1 = (Scrape.processUrls w us).1 ∧
      (Scrape.processUrls w (u :: us)).2 = u :: (Scrape.processUrls w us).2) ∧
    (∀ u us h, w.detailFetch u = .ok h → h.contentText = none →
      (Scrape.processUrls w (u :: us)).1 =
        ⟨u, ""⟩ :: (Scrape.processUrls w us).1) ∧
    (∀ p rest h, w.listingFetch p = .ok h → h.listContainer = none →
      Scrape.processPages w (p :: rest) =
        (Scrape.processPages w rest).map
          (fun x => (x.1, p :: x.2.1, x.2.2))) := by
  refine ⟨?_, ?_, ?_⟩
  · intro u us e he
    constructor <;> simp [Scrape.processUrls, he]
  · intro u us h hh hc
    simp [Scrape.processUrls, hh, Scrape.parse_content, hc]
  · intro p rest h hp hc
    cases hrest : Scrape.processPages w rest with
    | error e =>
      simp [Scrape.processPages, hp, Scrape.parse_urls, hc,
        Scrape.processUrls, hrest, Except.map]
    | ok v =>
      obtain ⟨items, pageLog, urlLog⟩ := v
      simp [Scrape.processPages, hp, Scrape.parse_urls, hc,
        Scrape.processUrls, hrest, Except.map]

/-- C4 witness: on `c4World`, the failing URL "bad" is skipped while
"good" is still processed, "empty" degrades to an empty content string,
and the container-less listing page 1 passes through to page 2. -/
theorem scrape_continues_past_failures_w :
    ((Scrape.processUrls c4World ["bad", "good"]).1 =
        (Scrape.processUrls c4World ["good"]).1 ∧
      (Scrape.processUrls c4World ["bad", "good"]).2 =
        "bad" :: (Scrape.processUrls c4World ["good"]).2) ∧
    (Scrape.processUrls c4World ["empty", "good"]).1 =
      ⟨"empty", ""⟩ :: (Scrape.processUrls c4World ["good"]).1 ∧
    Scrape.processPages c4World [1, 2] =
      (Scrape.processPages c4World [2]).map
        (fun x => (x.1, 1 :: x.2.1, x.2.2)) :=
  ⟨(scrape_continues_past_failures c4World).1 "bad" ["good"] () rfl,
   (scrape_continues_past_failures c4World).2.1 "empty" ["good"] ⟨none⟩ rfl rfl,
   (scrape_continues_past_failures c4World).2.2 1 [2] ⟨none, none⟩ rfl rfl⟩

/-! ## Migration lemmas and claim C5 -/

/-- Folding `mark_as_sent` over a hash list appends exactly that list to
the sent collection. -/
theorem sent_fold_appends : ∀ (l : List String) (acc : Migrate.PBStore) (c : Nat),
    ((l.foldl (fun a h => (Migrate.mark_as_sent a.1 h, a.2 + 1)) (acc, c)).1).sent =
      acc.sent ++ l := by
  intro l
  induction l with
  | nil =>
    intro acc c
    simp
  | cons h rest ih =>
    intro acc c
    show (List.foldl _ (Migrate.mark_as_sent acc h, c + 1) rest).1.sent =
      acc.sent ++ h :: rest
    rw [ih]
    simp [Migrate.mark_as_sent]

/-- C5: the raw duplicate check is keyed by content hash and district —
the same content hash under a different district is inserted, not
suppressed — while the analyzed and sent existence checks are keyed by
content hash alone, independent of any district. -/
theorem dedupe_keying (hashFn : String → String) (st : Migrate.PBStore) :
    (∀ content district,
      Migrate.raw_exists hashFn st content district = true ↔
        ∃ rec ∈ st.raw, rec.content_hash = hashFn content ∧
          rec.district = district) ∧
    (∀ (item : Migrate.RawJsonItem) (d d' : String),
      Migrate.raw_exists hashFn st item.content d = true →
      Migrate.raw_exists hashFn st item.content d' = false →
      (Migrate.migrate_raw_data hashFn st [(d, [item])]).1.raw = st.raw ∧
      (Migrate.migrate_raw_data hashFn st [(d', [item])]).1.raw =
        st.raw ++ [⟨hashFn item.content, d', item.url, item.updated⟩]) ∧
    (∀ items it, it ∈ Migrate.analyzed_to_migrate st items ↔
      it ∈ items ∧ st.analyzed.contains it.hash = false) ∧
    (∀ (it : Migrate.AnalyzedJsonItem) (g : String),
      Migrate.analyzed_to_migrate st [{ it with goo := g }] =
        (Migrate.analyzed_to_migrate st [it]).map (fun x => { x with goo := g })) ∧
    (∀ hashes : List String,
      (Migrate.migrate_sent_data st hashes).1.sent =
        st.sent ++ hashes.filter (fun h => !(st.sent.contains h))) := by
  refine ⟨?_, ?_, ?_, ?_, ?_⟩
  · intro content district
    simp [Migrate.raw_exists, List.any_eq_true, Bool.and_eq_true,
      decide_eq_true_eq]
  · intro item d d' hd hd'
    constructor
    · simp [Migrate.migrate_raw_data, Migrate.migrate_raw_item, hd]
    · simp [Migrate.migrate_raw_data, Migrate.migrate_raw_item, hd',
        Migrate.add_raw]
  · intro items it
    simp [Migrate.analyzed_to_migrate, Migrate.get_analyzed_hashes,
      List.mem_filter]
  · intro it g
    by_cases hmem : it.hash ∈ st.analyzed
    · simp [Migrate.analyzed_to_migrate, Migrate.get_analyzed_hashes,
        List.filter, hmem]
    · simp [Migrate.analyzed_to_migrate, Migrate.get_analyzed_hashes,
        List.filter, hmem]
  · intro hashes
    simp [Migrate.migrate_sent_data, Migrate.get_sent_hashes,
      sent_fold_appends]

/-- C5 witness: on `sampleStore`, the same content re-ingested for "북구"
is skipped while the same content for "동구" is inserted; the analyzed
filter drops the already-analyzed hash regardless of its district field;
and the sent migration appends exactly the hashes not already sent. -/
theorem dedupe_keying_w :
    ((Migrate.migrate_raw_data sampleHashFn sampleStore
        [("북구", [sampleRawItem])]).1.raw = sampleStore.raw ∧
      (Migrate.migrate_raw_data sampleHashFn sampleStore
        [("동구", [sampleRawItem])]).1.raw =
        sampleStore.raw ++
          [⟨sampleHashFn sampleRawItem.content, "동구", sampleRawItem.url,
            sampleRawItem.updated⟩]) ∧
    (sampleAnalyzedItem ∈
        Migrate.analyzed_to_migrate sampleStore [sampleAnalyzedItem] ↔
      sampleAnalyzedItem ∈ [sampleAnalyzedItem] ∧
        sampleStore.analyzed.contains sampleAnalyzedItem.hash = false) ∧
    (Migrate.migrate_sent_data sampleStore ["s1", "s2"]).1.sent =
      sampleStore.sent ++
        ["s1", "s2"].filter (fun h => !(sampleStore.sent.contains h)) :=
  ⟨(dedupe_keying sampleHashFn sampleStore).2.1 sampleRawItem "북구" "동구"
      (by decide) (by decide),
   (dedupe_keying sampleHashFn sampleStore).2.2.1 [sampleAnalyzedItem]
      sampleAnalyzedItem,
   (dedupe_keying sampleHashFn sampleStore).2.2.2.2 ["s1", "s2"]⟩
